import Mathlib

/- Verification development for the SaaS business-plan generator repository.

   The Python sources (main.py, custom_agents.py, search_tools.py) are embedded
   shallowly: the stateful chat-turn handlers become explicit state-passing
   functions, the language-model and web calls become oracle parameters (an
   `Except String` result stands for "returned normally" versus "raised an
   exception whose str() is the carried string"), and Python dictionaries
   become association lists. -/

/- ===== Python string and dictionary primitives ===== -/

/-- Python substring containment (the `in` operator) on lists of characters:
`listContainsSub needle hay` is true when `needle` occurs contiguously in `hay`. -/
def listContainsSub (needle : List Char) : List Char → Bool
  | [] => needle.isEmpty
  | c :: t => needle.isPrefixOf (c :: t) || listContainsSub needle t

/-- Python `needle in hay` on strings. -/
def pyIn (needle hay : String) : Bool :=
  listContainsSub needle.toList hay.toList

/-- Truthiness of a Python `Optional[str]` value: `None` and the empty string are
falsy, every other string is truthy. -/
def pyTruthy : Option String → Bool
  | none => false
  | some s => !s.isEmpty

/-- A Python dictionary with string keys and `Optional[str]` values, kept as an
association list in insertion order (the shape of `startup_info` in main.py). -/
abbrev StartupDict := List (String × Option String)

/-- Python `d.get(k)` on a `StartupDict`: the stored value when the key is
present, `None` otherwise (a stored `None` and a missing key both give `none`). -/
def pyGet (d : StartupDict) (k : String) : Option String :=
  match d.find? (fun p => p.1 == k) with
  | some p => p.2
  | none => none

/-- Python `d.get(k, default)` as rendered inside an f-string: a stored string is
itself, a stored `None` renders as the four characters "None", and only a missing
key yields the default string. -/
def pyStrOfGet (d : StartupDict) (k dflt : String) : String :=
  match d.find? (fun p => p.1 == k) with
  | some p =>
    match p.2 with
    | some s => s
    | none => "None"
  | none => dflt

/-- Python `d.get(k, default)` over a string-to-string dictionary. -/
def lookupD (d : List (String × String)) (k dflt : String) : String :=
  match d.find? (fun p => p.1 == k) with
  | some p => p.2
  | none => dflt

/-- Characterwise worker for Python `str.title`: a letter is uppercased when the
previous character is not a letter and lowercased otherwise. -/
def pyTitleAux : Bool → List Char → List Char
  | _, [] => []
  | prevAlpha, c :: t =>
    (if c.isAlpha then (if prevAlpha then c.toLower else c.toUpper) else c) ::
      pyTitleAux c.isAlpha t

/-- Python `str.title` (ASCII-accurate, which covers the tool names it is applied
to in main.py). -/
def pyTitle (s : String) : String :=
  ⟨pyTitleAux false s.toList⟩

/-- Worker for Python `str.replace` with a nonempty pattern `p :: ps`. The fuel
counter makes the recursion structural; each step consumes at least one
character of the haystack, so fuel equal to the haystack length never runs out. -/
def pyReplaceL (p : Char) (ps rep : List Char) : Nat → List Char → List Char
  | _, [] => []
  | 0, l => l
  | fuel + 1, c :: t =>
    if (p :: ps).isPrefixOf (c :: t) then rep ++ pyReplaceL p ps rep fuel (t.drop ps.length)
    else c :: pyReplaceL p ps rep fuel t

/-- Python `s.replace(pat, rep)`; the code only uses it with the nonempty
pattern "_", so the empty-pattern case (which Python treats specially) is kept
as the identity. -/
def pyReplace (s pat rep : String) : String :=
  match pat.toList with
  | [] => s
  | p :: ps => ⟨pyReplaceL p ps rep.toList s.toList.length s.toList⟩

/- ===== search_tools.py ===== -/

/-- Abstract token standing for a Python float value (Tavily relevance scores and
response times): the embedded code only passes these through, never computes with
them, so the representation is an uninterpreted tag. -/
structure PyFloat where
  tag : Nat
deriving DecidableEq, Repr

/-- Python values as returned by the three web-search tool functions. -/
inductive PyVal where
  | vnone : PyVal
  | vstr (s : String) : PyVal
  | vfloat (f : PyFloat) : PyVal
  | vlist (items : List PyVal) : PyVal
  | vdict (entries : List (String × PyVal)) : PyVal
deriving Repr

/-- One entry of a successful Tavily search response, with the fields
search_tools.py reads from it. -/
structure TavilySearchResult where
  url : String
  title : String
  content : String
  score : PyFloat

/-- A successful Tavily search response, with the fields search_tools.py reads. -/
structure TavilySearchResponse where
  query : String
  results : List TavilySearchResult
  response_time : PyFloat

/-- tavily_search_tool from search_tools.py. The Tavily client call is an oracle:
`Except.ok` carries the parsed response, `Except.error` carries `str(e)` of an
exception raised by the client. The Python defaults are max_results=5,
topic="general", search_depth="basic". -/
def tavily_search_tool (query : String) (max_results : Nat) (topic : String)
    (search_depth : String) (client : Except String TavilySearchResponse) : PyVal :=
  match client with
  | .ok response =>
    .vdict [
      ("query", .vstr response.query),
      ("results", .vlist (response.results.map (fun result =>
        .vdict [
          ("url", .vstr result.url),
          ("title", .vstr result.title),
          ("content", .vstr result.content),
          ("score", .vfloat result.score)
        ]))),
      ("response_time", .vfloat response.response_time)
    ]
  | .error e => .vdict [("error", .vstr e), ("results", .vlist []), ("response_time", .vnone)]

/-- One entry of a Tavily extract response; `title` and `images` are read with
`.get` defaults in search_tools.py, so they are optional here. -/
structure TavilyExtractResult where
  url : String
  title : Option String
  content : String
  images : Option (List PyVal)

/-- A Tavily extract response: either the expected list shape or some other
value (carried as its rendered text, which the code interpolates into an
error message). -/
inductive TavilyExtractResponse where
  | list (results : List TavilyExtractResult) : TavilyExtractResponse
  | other (rendered : String) : TavilyExtractResponse

/-- tavily_extract_tool from search_tools.py. The Python default is
include_images=False. -/
def tavily_extract_tool (urls : List String) (include_images : Bool)
    (client : Except String TavilyExtractResponse) : PyVal :=
  match client with
  | .ok (.list response) =>
    .vlist (response.map (fun result =>
      .vdict [
        ("url", .vstr result.url),
        ("title", .vstr (result.title.getD "")),
        ("content", .vstr result.content),
        ("images", .vlist (if include_images then result.images.getD [] else []))
      ]))
  | .ok (.other rendered) =>
    .vdict [("error", .vstr ("Unexpected response format: " ++ rendered)), ("results", .vlist [])]
  | .error e => .vdict [("error", .vstr e), ("results", .vlist [])]

/-- One entry of a Tavily crawl response, with the fields search_tools.py reads. -/
structure TavilyCrawlResult where
  url : String
  raw_content : String

/-- A successful Tavily crawl response. -/
structure TavilyCrawlResponse where
  results : List TavilyCrawlResult

/-- tavily_crawl_tool from search_tools.py. The Python defaults are max_depth=2,
limit=10, instructions=None. -/
def tavily_crawl_tool (start_url : String) (max_depth : Nat) (limit : Nat)
    (instructions : Option String) (client : Except String TavilyCrawlResponse) : PyVal :=
  match client with
  | .ok response =>
    .vlist (response.results.map (fun result =>
      .vdict [("url", .vstr result.url), ("raw_content", .vstr result.raw_content)]))
  | .error e => .vdict [("error", .vstr e), ("results", .vlist [])]

/- ===== custom_agents.py ===== -/

/-- Reference to the shared language-model back end. Modelled from the spec:
client.py, which constructs the `model` object, is not under src/; the spec says
each agent is "bound to a shared large-language-model back end", so the model is
one uninterpreted token that every agent definition references by name. -/
inductive ModelRef where
  | sharedBackend : ModelRef
deriving DecidableEq, Repr

/-- The `model` object imported from client: the one shared back end. -/
def model : ModelRef := .sharedBackend

/-- References to the three web-search function tools of search_tools.py (the
functions themselves are embedded above; an agent tool list holds references to
them, mirroring `tools=[tavily_search_tool, tavily_extract_tool,
tavily_crawl_tool]`). -/
inductive WebTool where
  | tavily_search_tool : WebTool
  | tavily_extract_tool : WebTool
  | tavily_crawl_tool : WebTool
deriving DecidableEq, Repr

/-- The `Agent` record of the agents framework, restricted to the fields
custom_agents.py sets; `τ` is the type of the tool-list entries (web-search tool
references for the six specialists, agent-as-tool bindings for the orchestrator). -/
structure Agent (τ : Type) where
  name : String
  instructions : String
  model : ModelRef
  tools : List τ
deriving DecidableEq, Repr

/-- market_analyst_agent from custom_agents.py. -/
def market_analyst_agent : Agent WebTool :=
  { name := "MarketAnalyst",
    instructions := "
        Analyze the SaaS market for the provided startup information. 
        
        Context: You are a SaaS market analyst with 10+ years of experience in software-as-a-service markets, specializing in market sizing, competitive analysis, and identifying opportunities for recurring revenue businesses. 
        
        Logic: Based on the startup information provided as a single string, analyze and provide:
        1. Total Addressable Market (TAM), Serviceable Addressable Market (SAM), and Serviceable Obtainable Market (SOM) for SaaS
        2. Key SaaS competitors in this space (direct and indirect)
        3. Market gaps and SaaS-specific opportunities
        4. SaaS customer segments and persona analysis
        5. Industry trends specific to SaaS and recurring revenue models
        
        Input format will be a single string containing startup information in the exact format:
        \"Startup Name: [name] | Idea: [idea] | Target Market: [market] | Key Features: [features]\"
        
        Roleplay: As a SaaS market expert, focus on metrics and benchmarks that matter to SaaS investors and stakeholders.
        
        Formatting: Respond in bullet points and structured format rather than long paragraphs. Use tables where appropriate for market size comparisons.
        
        Questions: Ask clarifying questions that will help refine the analysis.
        
        DO NOT expect JSON objects. Only process the single string format above.
        Keep analysis CONCISE (max 300 words). Focus on what matters for SaaS investors.
        ",
    model := model,
    tools := [
      .tavily_search_tool,
      .tavily_extract_tool,
      .tavily_crawl_tool
    ] }

/-- product_strategist_agent from custom_agents.py. -/
def product_strategist_agent : Agent WebTool :=
  { name := "ProductStrategist",
    instructions := "
        Design the SaaS product strategy for the provided startup. 
        
        Context: You are a senior SaaS product strategist with extensive experience in software-as-a-service product development, user experience, and growth metrics. You understand the unique challenges of building recurring revenue software products.
        
        Logic: Based on the startup information provided as a single string, define:
        1. SaaS-specific core value proposition (one sentence focusing on recurring value)
        2. Main problem it solves for SaaS customers
        3. MVP features prioritized for SaaS user onboarding and retention
        4. Key differentiators vs SaaS competitors (use search tools to research competitors)
        5. SaaS product roadmap (Phase 2, Phase 3) with focus on retention and expansion
        
        Input format will be a single string containing startup information in the exact format:
        \"Startup Name: [name] | Idea: [idea] | Target Market: [market] | Key Features: [features]\"
        
        Roleplay: As a SaaS product expert, focus on features that drive customer engagement, retention, and expansion revenue.
        
        Formatting: Respond in bullet points and structured format rather than long paragraphs. Use lists and tables where appropriate.
        
        Questions: Ask clarifying questions about the product-market fit and user experience.
        
        DO NOT expect JSON objects. Only process the single string format above.
        Use the search tools when you need to research competitors or related SaaS products in the market.
        Keep it CONCISE (max 250 words). Focus on customer outcomes and SaaS metrics.
        ",
    model := model,
    tools := [
      .tavily_search_tool,
      .tavily_extract_tool,
      .tavily_crawl_tool
    ] }

/-- business_model_agent from custom_agents.py. -/
def business_model_agent : Agent WebTool :=
  { name := "BusinessModelAnalyst",
    instructions := "
        Design the SaaS business model for the provided startup.
        
        Context: You are a SaaS business model expert with deep expertise in recurring revenue models, pricing strategies, and unit economics specific to software-as-a-service businesses. 
        
        Logic: Based on the startup information provided as a single string, design:
        1. SaaS-specific pricing model (subscription, freemium, tiered, usage-based, etc)
        2. Suggested SaaS price tiers with feature differentiation (research competitor pricing)
        3. SaaS unit economics (CAC, LTV, LTV/CAC ratio, payback period, gross margin)
        4. ARR/MRR projections and growth rates
        5. Break-even timeline for SaaS model
        
        Input format will be a single string containing startup information in the exact format:
        \"Startup Name: [name] | Idea: [idea] | Target Market: [market] | Key Features: [features]\"
        
        Roleplay: As a SaaS business model expert, focus on metrics and benchmarks that matter to SaaS investors.
        
        Formatting: Respond in bullet points and structured format rather than long paragraphs. Use tables for pricing tiers and unit economics.
        
        Questions: Ask clarifying questions about pricing and growth strategy.
        
        DO NOT expect JSON objects. Only process the single string format above.
        Use search tools to research SaaS competitor pricing models and industry benchmarks.
        Keep it CONCISE (max 250 words). Show the math. Be conservative.
        ",
    model := model,
    tools := [
      .tavily_search_tool,
      .tavily_extract_tool,
      .tavily_crawl_tool
    ] }

/-- gtm_strategist_agent from custom_agents.py. -/
def gtm_strategist_agent : Agent WebTool :=
  { name := "GoToMarketStrategist",
    instructions := "
        Plan the SaaS go-to-market strategy for the provided startup.
        
        Context: You are a SaaS go-to-market strategist with extensive experience in software-as-a-service customer acquisition, retention, and expansion. You understand the unique challenges of selling software to businesses and consumers.
        
        Logic: Based on the startup information provided as a single string, plan:
        1. SaaS-specific Ideal Customer Profile (ICP) and buyer personas
        2. Primary SaaS distribution channels (2-3) - research where similar SaaS companies distribute
        3. Phase 1 SaaS customer acquisition tactics (to get first 100 customers)
        4. Phase 2 SaaS scaling strategy - look up similar SaaS company growth strategies
        5. SaaS-specific milestones and metrics (CAC payback, NPS, retention, expansion revenue)
        
        Input format will be a single string containing startup information in the exact format:
        \"Startup Name: [name] | Idea: [idea] | Target Market: [market] | Key Features: [features]\"
        
        Roleplay: As a SaaS GTM expert, focus on strategies that drive customer acquisition, activation, retention, and expansion.
        
        Formatting: Respond in bullet points and structured format rather than long paragraphs. Use lists and tables where appropriate.
        
        Questions: Ask clarifying questions about target customers and positioning.
        
        DO NOT expect JSON objects. Only process the single string format above.
        Use search tools to research SaaS distribution channels and tactics used by similar SaaS companies.
        Keep it CONCISE (max 250 words). Be specific and tactical.
        ",
    model := model,
    tools := [
      .tavily_search_tool,
      .tavily_extract_tool,
      .tavily_crawl_tool
    ] }

/-- financial_analyst_agent from custom_agents.py. -/
def financial_analyst_agent : Agent WebTool :=
  { name := "FinancialAnalyst",
    instructions := "
        Project SaaS financials for the provided startup.
        
        Context: You are a SaaS financial analyst with deep expertise in recurring revenue models, SaaS metrics, and financial projections specific to software-as-a-service companies.
        
        Logic: You will receive startup information as a single string, in the exact format:
        \"Startup Name: [name] | Idea: [idea] | Target Market: [market] | Key Features: [features]\"
        
        Based on this SaaS information, project:
        1. SaaS customer growth projections (12-month conservative) - research SaaS benchmarks
        2. Monthly MRR/ARR projections with cohort analysis
        3. SaaS operating expense estimates - research SaaS industry benchmarks
        4. SaaS-specific burn rate and runway (accounting for SaaS sales cycles)
        5. SaaS path to profitability timeline
        6. Key SaaS financial assumptions (CAC payback period, gross margins, churn rates)
        
        Roleplay: As a SaaS financial expert, focus on metrics that matter to SaaS investors.
        
        Formatting: Respond in bullet points and structured format rather than long paragraphs. Use tables for financial projections where appropriate.
        
        Questions: Ask clarifying questions about unit economics and growth assumptions.
        
        DO NOT expect or request JSON objects. ONLY accept the information in the single string format described above.
        
        Use search tools to find SaaS market benchmarks and financial metrics for similar SaaS companies.
        Keep it CONCISE (max 250 words). Show assumptions and math.
        ",
    model := model,
    tools := [
      .tavily_search_tool,
      .tavily_extract_tool,
      .tavily_crawl_tool
    ] }

/-- exec_summary_agent from custom_agents.py. -/
def exec_summary_agent : Agent WebTool :=
  { name := "ExecutiveSummaryWriter",
    instructions := "
        Write a concise SaaS business plan executive summary with the startup information provided as a single string.
        
        Context: You are a SaaS business storyteller and strategist with experience in presenting to investors and stakeholders. You understand what makes a SaaS business compelling and investible.
        
        Logic: Write a 1-page executive summary with the SaaS startup information provided as a single string:
        1. SaaS-specific problem statement (what\x27s broken in the market)
        2. SaaS solution (clear and simple, emphasizing recurring value)
        3. SaaS market opportunity (TAM, SAM, SOM with growth projections) - research market size and growth
        4. Why now for this SaaS solution (timing, industry trends)
        5. Why this SaaS will win (competitive advantage) - research competitive landscape
        6. SaaS business model and path to profitability (focusing on recurring revenue)
        
        Input format will be a single string containing startup information in the exact format:
        \"Startup Name: [name] | Idea: [idea] | Target Market: [market] | Key Features: [features]\"
        
        Roleplay: As a SaaS business expert, focus on elements that matter to SaaS investors.
        
        Formatting: Respond in bullet points, structured sections, and concise paragraphs. Use headers for each section. No long walls of text.
        
        Questions: Ask clarifying questions to enhance the summary.
        
        DO NOT expect JSON objects. Only process the single string format above.
        Use search tools to validate SaaS market size, growth, and competitive advantages.
        Keep it CONCISE (max 400 words). Write like a journalist - clear, compelling, no jargon. Focus on SaaS metrics and value proposition.
        ",
    model := model,
    tools := [
      .tavily_search_tool,
      .tavily_extract_tool,
      .tavily_crawl_tool
    ] }

/-- The six specialist agents in source order. -/
def specialistAgents : List (Agent WebTool) :=
  [market_analyst_agent, product_strategist_agent, business_model_agent,
   gtm_strategist_agent, financial_analyst_agent, exec_summary_agent]

/-- The result of `Agent.as_tool`: a specialist agent exposed to the orchestrator
as a named tool. -/
structure SpecToolBinding where
  agent : Agent WebTool
  tool_name : String
  tool_description : String
deriving DecidableEq, Repr

/-- The agents framework method `as_tool(tool_name=..., tool_description=...)`. -/
def Agent.as_tool (a : Agent WebTool) (tool_name tool_description : String) : SpecToolBinding :=
  { agent := a, tool_name := tool_name, tool_description := tool_description }

/-- The instruction text of business_plan_generator_agent from custom_agents.py,
line by line (the Python source holds it as one triple-quoted string; the first
element is the empty line directly after the opening quotes and the last element
is the indentation before the closing quotes). -/
def business_plan_generator_instruction_lines : List String := [
  "",
  "        Generate a comprehensive SaaS business plan using the 6-part prompting framework.",
  "        ",
  "        Command: Create a professional SaaS business plan with structured sections focusing on recurring revenue metrics.",
  "        ",
  "        Context: You are a SaaS business plan expert working with a startup that provides software-as-a-service solutions. The startup information comes as a single formatted string with 4 key elements: name, idea, target market, and key features. Focus on SaaS-specific metrics, strategies, and financial projections.",
  "        ",
  "        Logic: Your role has two phases:",
  "        1. Information Gathering Phase: Collect 4 specific pieces of information about the SaaS startup:",
  "           - SaaS startup name",
  "           - What the SaaS does (idea/problem it solves)",
  "           - Target market for the SaaS (who uses it)",
  "           - Key SaaS features (core capabilities)",
  "           ",
  "           Instructions during information gathering:",
  "           - If user provides info, acknowledge it and ask for missing pieces",
  "           - Ask only ONE question per response",
  "           - Be friendly, concise, and efficient",
  "",
  "        2. Business Plan Generation Phase: Once you have all 4 pieces of information, generate a comprehensive SaaS business plan by calling specialist agents.",
  "",
  "        PROCESS for business plan generation:",
  "        1. Call analyze_market_agent ONCE with all SaaS startup information as a single formatted string",
  "        2. Call define_product_agent ONCE with all SaaS startup information as a single formatted string",
  "        3. Call design_revenue_model_agent ONCE with all SaaS startup information as a single formatted string",
  "        4. Call plan_gtm_agent ONCE with all SaaS startup information as a single formatted string",
  "        5. Call project_financials_agent ONCE with all SaaS startup information as a single formatted string",
  "        6. Call write_summary_agent ONCE with all SaaS startup information as a single formatted string",
  "        7. Compile all sections into the final SaaS business plan",
  "        7. Compile all into the final business plan",
  "",
  "        FORMAT YOUR BUSINESS PLAN OUTPUT AS:",
  "        Roleplay: You are a senior SaaS business consultant with deep expertise in recurring revenue models, SaaS metrics, and investor presentations.",
  "        ",
  "        Formatting: FORMAT YOUR BUSINESS PLAN OUTPUT AS:",
  "        # SaaS Business Plan: [Startup Name]",
  "        ",
  "        ## Executive Summary",
  "        [SaaS executive summary content in bullet points and structured format]",
  "        ",
  "        ## Market Analysis & Opportunity",
  "        [SaaS market analysis in bullet points and structured format]",
  "        ",
  "        ## Product & Solution",
  "        [SaaS product strategy in bullet points and structured format]",
  "        ",
  "        ## Business Model & Revenue Strategy",
  "        [SaaS business model in bullet points and structured format]",
  "        ",
  "        ## Go-to-Market Strategy",
  "        [SaaS GTM strategy in bullet points and structured format]",
  "        ",
  "        ## Financial Projections & Unit Economics",
  "        [SaaS financials in bullet points and structured format with tables where appropriate]",
  "        ",
  "        Questions: If the user wants to refine the business plan after seeing the initial draft, ask 5 SaaS-specific questions to enhance the plan.",
  "        ",
  "        CRITICAL INSTRUCTIONS:",
  "        - PASS ALL startup information as a single formatted STRING to each specialist agent",
  "        - The format must be exactly: \"Startup Name: [value] | Idea: [value] | Target Market: [value] | Key Features: [value]\" with pipe separators",
  "        - DO NOT pass multiple data sets, JSON objects, or structured data to any specialist agent",
  "        - When you call a specialist agent, pass the ENTIRE startup information as ONE string parameter",
  "        - Ensure you pass the information only ONCE, without duplication",
  "        - Example correct call: analyze_market(\"Startup Name: Company | Idea: Solves X problem | Target Market: Small businesses | Key Features: Invoicing, tracking\")",
  "        - The system will automatically convert your string call to the proper tool format: analyze_market(\x7b\"input\": \"Startup Name: ...\"\x7d)",
  "        - Use bullet points, lists, and structured formats instead of long paragraphs",
  "        - Focus on SaaS metrics and recurring revenue models throughout",
  "        - Keep sections concise and investor-focused",
  "        ",
  "        Make it professional, concise, and focused on what matters to SaaS investors.",
  "        "]

/-- business_plan_generator_agent from custom_agents.py: the unified orchestrator
agent, whose tools are the six specialist agents wrapped by `as_tool`. -/
def business_plan_generator_agent : Agent SpecToolBinding :=
  { name := "BusinessPlanGenerator",
    model := model,
    tools := [
      market_analyst_agent.as_tool "analyze_market" "Analyze SaaS market and competitors. Input must be a single formatted string in the format: \x27Startup Name: [name] | Idea: [idea] | Target Market: [market] | Key Features: [features]\x27",
      product_strategist_agent.as_tool "define_product" "Define SaaS product strategy. Input must be a single formatted string in the format: \x27Startup Name: [name] | Idea: [idea] | Target Market: [market] | Key Features: [features]\x27",
      business_model_agent.as_tool "design_revenue_model" "Design SaaS business model. Input must be a single formatted string in the format: \x27Startup Name: [name] | Idea: [idea] | Target Market: [market] | Key Features: [features]\x27",
      gtm_strategist_agent.as_tool "plan_gtm" "Plan SaaS go-to-market. Input must be a single formatted string in the format: \x27Startup Name: [name] | Idea: [idea] | Target Market: [market] | Key Features: [features]\x27",
      financial_analyst_agent.as_tool "project_financials" "Project SaaS financials. Input must be a single formatted string in the format: \x27Startup Name: [name] | Idea: [idea] | Target Market: [market] | Key Features: [features]\x27",
      exec_summary_agent.as_tool "write_summary" "Write SaaS executive summary. Input must be a single formatted string in the format: \x27Startup Name: [name] | Idea: [idea] | Target Market: [market] | Key Features: [features]\x27"
    ],
    instructions := String.intercalate "\n" business_plan_generator_instruction_lines }

/-- The heading format line mandated by the orchestrator instructions. -/
def planHeadingTemplate : String := "        # SaaS Business Plan: [Startup Name]"

/-- The heading an output following the mandated format carries for a given
startup name: the template line with its indentation stripped and the
placeholder replaced by the name. -/
def mandatedHeading (name : String) : String :=
  "# SaaS Business Plan: " ++ name

/- ===== main.py ===== -/

/-- One record of the conversation history: a role/content pair. -/
structure Msg where
  role : String
  content : String
deriving DecidableEq, Repr

/-- The cross-turn session state main.py keeps in the Chainlit user session:
the conversation history and the four-field startup-info dictionary. -/
structure Session where
  conversation_history : List Msg
  startup_info : StartupDict
deriving DecidableEq, Repr

/-- The session state installed by the on_chat_start handler `start` in main.py:
empty history and the four keys all mapped to None. (The handler also sends a
welcome message, recorded separately as `welcomeMessage`.) -/
def start : Session :=
  { conversation_history := [],
    startup_info := [
      ("name", none),
      ("idea", none),
      ("target_market", none),
      ("key_features", none)
    ] }

/-- The welcome message sent by on_chat_start. -/
def welcomeMessage : String :=
  "\n🚀 **Welcome to the Business Plan Generator!**\n\nI\x27ll help you create a comprehensive SaaS business plan. \nTell me about your startup idea, and I\x27ll gather the necessary information to create your business plan.\n\nLet\x27s get started! 💡\n    "

/-- The fresh four-None startup-info dictionary that main.py writes whenever it
resets the session (the literal appears at lines 17-22, 120-125, 146-151 and
185-190 of main.py). -/
def freshStartupInfo : StartupDict :=
  [("name", none), ("idea", none), ("target_market", none), ("key_features", none)]

/-- The streaming events business_plan_generation dispatches over, as
discriminated by the event-type and item-type tests in main.py lines 73-102:
a raw text delta, a raw response.output_item.added record (whose item may or
may not carry a tool name), other raw events, a run_item_stream_event whose
item is a tool_call_item (carrying the event attribute `name` when present,
which main.py reads with getattr(event, \x27name\x27, \x27unknown\x27)), a
run_item_stream_event whose item is a tool_call_output_item, other
run_item_stream_events, and any other event type. -/
inductive StreamEvent where
  | textDelta (delta : String) : StreamEvent
  | outputItemAdded (tool_name : Option String) : StreamEvent
  | rawOther : StreamEvent
  | toolCallItem (eventName : Option String) : StreamEvent
  | toolCallOutputItem : StreamEvent
  | runItemOther : StreamEvent
  | otherEvent : StreamEvent
deriving DecidableEq, Repr

/-- The mutable state of the streaming loop in business_plan_generation: the
content streamed into the output message so far, the current status-message
text, and the `current_tool` tracking variable. -/
structure LoopState where
  msgContent : String
  statusContent : String
  current_tool : Option String
deriving DecidableEq, Repr

/-- The tool_status_messages dictionary of main.py lines 63-70. -/
def tool_status_messages : List (String × String) := [
  ("analyze_market", "🔍 Researching market trends and competitors..."),
  ("define_product", "💡 Defining product strategy and value proposition..."),
  ("design_revenue_model", "💰 Designing business model and pricing strategy..."),
  ("plan_gtm", "🎯 Planning go-to-market strategy..."),
  ("project_financials", "📊 Projecting financials and unit economics..."),
  ("write_summary", "📝 Writing executive summary...")
]

/-- One iteration of the `async for event in result.stream_events()` loop of
business_plan_generation (main.py lines 73-102). The tool-completion branch
mirrors the `if completed_tool:` truthiness guard of line 101: the completion
status is written only when the tracked tool name is neither None nor empty. -/
def stepEvent (st : LoopState) (event : StreamEvent) : LoopState :=
  match event with
  | .textDelta delta =>
    if delta.isEmpty then st
    else { st with msgContent := st.msgContent ++ delta }
  | .outputItemAdded (some tool_name) =>
    { st with
      current_tool := some tool_name,
      statusContent := lookupD tool_status_messages tool_name ("🔄 Executing " ++ tool_name ++ "...") }
  | .outputItemAdded none => st
  | .rawOther => st
  | .toolCallItem eventName =>
    let tool_name := eventName.getD "unknown"
    if !tool_name.isEmpty && tool_status_messages.any (fun p => p.1 == tool_name) then
      { st with
        current_tool := some tool_name,
        statusContent := lookupD tool_status_messages tool_name "" }
    else st
  | .toolCallOutputItem =>
    match st.current_tool with
    | some completed_tool =>
      if completed_tool.isEmpty then st
      else
        { st with
          statusContent :=
            "✅ Completed " ++ pyTitle (pyReplace completed_tool "_" " ") ++ "... Starting next phase..." }
    | none => st
  | .runItemOther => st
  | .otherEvent => st

/-- The startup_context f-string of business_plan_generation (main.py lines 47-53). -/
def startup_context (startup_info : StartupDict) : String :=
  "\n        Generate a comprehensive business plan with the following startup information:\n        - Name: "
    ++ pyStrOfGet startup_info "name" "Not provided"
    ++ "\n        - Idea: " ++ pyStrOfGet startup_info "idea" "Not provided"
    ++ "\n        - Target Market: " ++ pyStrOfGet startup_info "target_market" "Not provided"
    ++ "\n        - Key Features: " ++ pyStrOfGet startup_info "key_features" "Not provided"
    ++ "\n        "

/-- The initial status-message text of business_plan_generation. -/
def startingStatus : String := "🔄 Starting business plan generation..."

/-- What a call to business_plan_generation produces: the contents of the
messages it sends (in order of creation) and, when the stream completes without
an exception, the final state of the streaming loop. -/
structure PlanOutcome where
  sent : List String
  finalState : Option LoopState
deriving DecidableEq, Repr

/-- business_plan_generation from main.py. `runStreamed` is the oracle for
`Runner.run_streamed(business_plan_generator_agent, startup_context)` together
with the event stream it yields: `Except.ok events` is the list of streamed
events, `Except.error e` means an exception with message `e` was raised inside
the try block (after the output and status messages were created). The except
clause catches every such exception and sends the error message instead. -/
def business_plan_generation (startup_info : StartupDict)
    (runStreamed : Agent SpecToolBinding → String → Except String (List StreamEvent)) :
    PlanOutcome :=
  match runStreamed business_plan_generator_agent (startup_context startup_info) with
  | .ok events =>
    { sent := ["", startingStatus],
      finalState := some (events.foldl stepEvent
        { msgContent := "", statusContent := startingStatus, current_tool := none }) }
  | .error e =>
    { sent := ["", startingStatus, "❌ Error generating plan: " ++ e],
      finalState := none }

/-- The context_message f-string of the message handler (main.py lines 155-168). -/
def context_message (startup_info : StartupDict) (user_message : String) : String :=
  "\n            Current startup information gathered:\n            - Name: "
    ++ pyStrOfGet startup_info "name" "Not provided"
    ++ "\n            - Idea: " ++ pyStrOfGet startup_info "idea" "Not provided"
    ++ "\n            - Target Market: " ++ pyStrOfGet startup_info "target_market" "Not provided"
    ++ "\n            - Key Features: " ++ pyStrOfGet startup_info "key_features" "Not provided"
    ++ "\n\n            Latest user message: " ++ user_message
    ++ "\n\n            Your task:\n            1. If the user is providing startup information, acknowledge it and ask for any missing pieces.\n            2. If all required information is available (name, idea, target market, key features), generate the complete business plan.\n            3. If information is missing, ask for the specific missing piece.\n            "

/-- The error message the message handler sends from its except clause
(main.py lines 198-204). -/
def errorTemplate (e : String) : String :=
  "\n❌ **Error:**\n\n" ++ e ++ "\n\nPlease try again or provide more details about your startup.\n        "

/-- The all_info_present test of the message handler (main.py lines 133-138):
Python `all` over the four dictionary lookups, i.e. truthiness of each. -/
def all_info_present (startup_info : StartupDict) : Bool :=
  [pyGet startup_info "name",
   pyGet startup_info "idea",
   pyGet startup_info "target_market",
   pyGet startup_info "key_features"].all pyTruthy

/-- Which code path of the message handler produced the turn result: the
all-info-present branch that calls business_plan_generation, the
gathering-phase branch that detected "# Business Plan:" in the agent response,
the ordinary information-gathering branch, or the except clause. -/
inductive Branch where
  | planGeneration : Branch
  | planDetected : Branch
  | gathering : Branch
  | errorCaught : Branch
deriving DecidableEq, Repr

/-- The observable result of one chat turn: the session state left behind, the
contents of the messages sent to the user (in order), and the branch taken. -/
structure HandlerResult where
  session : Session
  sent : List String
  branch : Branch
deriving DecidableEq, Repr

/-- The try block of the message handler `main` (main.py lines 131-195), after
the user message has already been appended to the history. `run` is the oracle
for `Runner.run(business_plan_generator_agent, context_message)`: `Except.ok`
carries `result.final_output`, `Except.error e` means the call raised an
exception with message `e`, which this block propagates to the except clause. -/
def mainBody (s : Session) (user_message : String)
    (run : Agent SpecToolBinding → String → Except String String)
    (runStreamed : Agent SpecToolBinding → String → Except String (List StreamEvent)) :
    Except String HandlerResult :=
  let startup_info := s.startup_info
  let history1 := s.conversation_history ++ [{ role := "user", content := user_message }]
  if all_info_present startup_info then
    let plan := business_plan_generation startup_info runStreamed
    .ok { session := { conversation_history := [], startup_info := freshStartupInfo },
          sent := plan.sent,
          branch := .planGeneration }
  else
    match run business_plan_generator_agent (context_message startup_info user_message) with
    | .error e => .error e
    | .ok response =>
      if pyIn "# Business Plan:" response then
        .ok { session := { conversation_history := [], startup_info := freshStartupInfo },
              sent := [response],
              branch := .planDetected }
      else
        .ok { session := { conversation_history := history1 ++ [{ role := "assistant", content := response }],
                           startup_info := startup_info },
              sent := [response],
              branch := .gathering }

/-- The on_message handler `main` of main.py (named mainHandler here because
Lean reserves `main` for an IO entry point): it appends the user message to the
history (outside the try block), runs the try block, and its except clause
catches any exception and sends `errorTemplate` instead of re-raising. -/
def mainHandler (s : Session) (user_message : String)
    (run : Agent SpecToolBinding → String → Except String String)
    (runStreamed : Agent SpecToolBinding → String → Except String (List StreamEvent)) :
    HandlerResult :=
  match mainBody s user_message run runStreamed with
  | .ok r => r
  | .error e =>
    { session := { conversation_history := s.conversation_history ++ [{ role := "user", content := user_message }],
                   startup_info := s.startup_info },
      sent := [errorTemplate e],
      branch := .errorCaught }

/-- Session states reachable from a fresh chat: the state installed by
on_chat_start, closed under arbitrary chat turns with arbitrary oracle
behaviour. (on_chat_end clears both keys to None and ends the session, after
which no further turn runs, so it adds no reachable session state.) -/
inductive Reachable : Session → Prop where
  | start : Reachable start
  | step (s : Session) (u : String)
      (run : Agent SpecToolBinding → String → Except String String)
      (runStreamed : Agent SpecToolBinding → String → Except String (List StreamEvent)) :
      Reachable s → Reachable (mainHandler s u run runStreamed).session

/- ===== The five near-identical chat-handler revisions ===== -/

/-- Modelled from the spec: only one revision of the top-level chat handler is
under src/ (main.py); the spec records that the source holds five near-identical
revisions differing "only in superficial event-plumbing details (when to create
a message object, whether to stream tokens eagerly)". This type captures the
first plumbing dimension: when the output message object is created. -/
inductive MsgCreation where
  | beforeStreaming : MsgCreation
  | atFirstToken : MsgCreation
deriving DecidableEq, Repr

/-- Modelled from the spec: the second plumbing dimension of the handler
revisions, whether response tokens are streamed eagerly or buffered into one
update. -/
inductive StreamingMode where
  | eager : StreamingMode
  | buffered : StreamingMode
deriving DecidableEq, Repr

/-- Modelled from the spec: the event-plumbing style of one handler revision
(message-creation timing, streaming mode, and whether a separate status message
is maintained). -/
structure RevisionStyle where
  creation : MsgCreation
  streaming : StreamingMode
  statusUpdates : Bool
deriving DecidableEq, Repr

/-- Modelled from the spec: the styles of the five near-identical revisions of
the chat handler; the first entry is the style of the revision kept in
src/main.py. -/
def revisionStyles : List RevisionStyle := [
  { creation := .beforeStreaming, streaming := .eager, statusUpdates := true },
  { creation := .beforeStreaming, streaming := .buffered, statusUpdates := true },
  { creation := .atFirstToken, streaming := .eager, statusUpdates := true },
  { creation := .atFirstToken, streaming := .buffered, statusUpdates := false },
  { creation := .beforeStreaming, streaming := .eager, statusUpdates := false }
]

/-- UI events a handler revision emits while plumbing response text to the chat
window: creating the output message with some initial content, streaming one
token into it, replacing its content, or updating a separate status message. -/
inductive UIEvent where
  | create (initial : String) : UIEvent
  | token (t : String) : UIEvent
  | setContent (c : String) : UIEvent
  | status (c : String) : UIEvent
deriving DecidableEq, Repr

/-- Concatenation of a list of streamed token strings. -/
def joinAll : List String → String
  | [] => ""
  | d :: ds => d ++ joinAll ds

/-- Replay a UI trace onto the output message, starting from content `acc`;
status events touch only the status message, not the output content. -/
def replayContent (acc : String) : List UIEvent → String
  | [] => acc
  | .create c :: t => replayContent c t
  | .token tk :: t => replayContent (acc ++ tk) t
  | .setContent c :: t => replayContent c t
  | .status _ :: t => replayContent acc t

/-- The final content of the output message after replaying a UI trace. -/
def finalContent (trace : List UIEvent) : String :=
  replayContent "" trace

/-- Modelled from the spec: how one revision style plumbs a stream of response
tokens to the UI. -/
def streamTrace (style : RevisionStyle) (deltas : List String) : List UIEvent :=
  match style.creation, style.streaming with
  | .beforeStreaming, .eager => .create "" :: deltas.map .token
  | .beforeStreaming, .buffered => [.create "", .setContent (joinAll deltas)]
  | .atFirstToken, .eager =>
    match deltas with
    | [] => []
    | d :: rest => .create d :: rest.map .token
  | .atFirstToken, .buffered =>
    match deltas with
    | [] => []
    | _ :: _ => [.create (joinAll deltas)]

/-- What one revision of the chat handler produces on a turn: the session state
left behind, the branch taken, and the UI trace it emitted. -/
structure RevOutcome where
  session : Session
  branch : Branch
  trace : List UIEvent
deriving DecidableEq, Repr

/-- Modelled from the spec: one of the five handler revisions run on a chat
turn. The substantive decisions (the all_info_present phase test, the
"# Business Plan:" detection, the session resets, the history appends) are those
of main.py; the revision style only affects how response text and status updates
are plumbed to the UI. In the plan-generation branch the agent's streamed output
is the token list `planDeltas`; in the gathering branch the single response from
`run` is plumbed as one token. -/
def revisionRun (style : RevisionStyle) (s : Session) (user_message : String)
    (run : Agent SpecToolBinding → String → Except String String)
    (planDeltas : List String) : RevOutcome :=
  let history1 := s.conversation_history ++ [{ role := "user", content := user_message }]
  if all_info_present s.startup_info then
    { session := { conversation_history := [], startup_info := freshStartupInfo },
      branch := .planGeneration,
      trace := (if style.statusUpdates then [.status startingStatus] else [])
        ++ streamTrace style planDeltas }
  else
    match run business_plan_generator_agent (context_message s.startup_info user_message) with
    | .error e =>
      { session := { conversation_history := history1, startup_info := s.startup_info },
        branch := .errorCaught,
        trace := [.create (errorTemplate e)] }
    | .ok response =>
      if pyIn "# Business Plan:" response then
        { session := { conversation_history := [], startup_info := freshStartupInfo },
          branch := .planDetected,
          trace := streamTrace style [response] }
      else
        { session := { conversation_history := history1 ++ [{ role := "assistant", content := response }],
                       startup_info := s.startup_info },
          branch := .gathering,
          trace := streamTrace style [response] }

/-- The substantive (plumbing-independent) observation of a revision outcome:
the session state, the branch, and the final content the user ends up seeing. -/
def substantive (o : RevOutcome) : Session × Branch × String :=
  (o.session, o.branch, finalContent o.trace)

/- ===== Helper lemmas ===== -/

/-- Containment holds when the needle is a prefix of the haystack. -/
lemma listContainsSub_of_isPrefixOf {n h : List Char} (hp : n.isPrefixOf h = true) :
    listContainsSub n h = true := by
  cases h with
  | nil =>
    cases n with
    | nil => rfl
    | cons c t => simp [List.isPrefixOf] at hp
  | cons c t => simp [listContainsSub, hp]

/-- Containment is preserved by extending the haystack on the left. -/
lemma listContainsSub_cons {n t : List Char} (c : Char) (h : listContainsSub n t = true) :
    listContainsSub n (c :: t) = true := by
  simp [listContainsSub, h]

/-- A list occurs in any haystack of the shape `l ++ n ++ r`. -/
lemma listContainsSub_middle (n : List Char) : ∀ l r : List Char,
    listContainsSub n (l ++ (n ++ r)) = true := by
  intro l r
  induction l with
  | nil =>
    simp only [List.nil_append]
    exact listContainsSub_of_isPrefixOf (List.isPrefixOf_iff_prefix.mpr (List.prefix_append n r))
  | cons c t ih => exact listContainsSub_cons c ih

/-- Python containment of `mid` in `pre ++ mid ++ suf` always holds. -/
lemma pyIn_middle (pre mid suf : String) : pyIn mid (pre ++ mid ++ suf) = true := by
  have : (pre ++ mid ++ suf).toList = pre.toList ++ (mid.toList ++ suf.toList) := by
    show (pre ++ mid ++ suf).data = pre.data ++ (mid.data ++ suf.data)
    simp [String.data_append]
  rw [pyIn, this]
  exact listContainsSub_middle mid.toList pre.toList suf.toList

/-- A prefix of an append is a prefix of the left part or extends it. -/
lemma prefix_append_cases {α : Type} {n l r : List α} (h : n <+: l ++ r) :
    n <+: l ∨ l <+: n := by
  rcases le_or_lt n.length l.length with hle | hlt
  · exact Or.inl (List.prefix_of_prefix_length_le h (List.prefix_append l r) hle)
  · exact Or.inr (List.prefix_of_prefix_length_le (List.prefix_append l r) h hlt.le)

/-- If the needle mismatches every nonempty suffix of `pre` (in the sense that
neither is a prefix of the other), then containment in `pre ++ r` is the same as
containment in `r`. -/
lemma listContainsSub_append_eq (n : List Char) : ∀ pre r : List Char,
    (∀ i, i < pre.length → ¬ n <+: pre.drop i ∧ ¬ pre.drop i <+: n) →
    listContainsSub n (pre ++ r) = listContainsSub n r := by
  intro pre
  induction pre with
  | nil => intro r _; rfl
  | cons c t ih =>
    intro r hcond
    have h0 := hcond 0 (by simp)
    simp only [List.drop_zero] at h0
    have hfalse : n.isPrefixOf ((c :: t) ++ r) = false := by
      rw [Bool.eq_false_iff]
      intro hp
      rcases prefix_append_cases (List.isPrefixOf_iff_prefix.mp hp) with h | h
      · exact h0.1 h
      · exact h0.2 h
    have ht : ∀ i, i < t.length → ¬ n <+: t.drop i ∧ ¬ t.drop i <+: n := by
      intro i hi
      have := hcond (i + 1) (by simp; omega)
      simpa using this
    calc listContainsSub n ((c :: t) ++ r)
        = (n.isPrefixOf ((c :: t) ++ r) || listContainsSub n (t ++ r)) := rfl
      _ = listContainsSub n (t ++ r) := by rw [hfalse]; simp
      _ = listContainsSub n r := ih r ht

/-- The all_info_present test unfolded into the four truthiness conjuncts. -/
lemma all_info_present_iff (d : StartupDict) :
    all_info_present d = true ↔
      pyTruthy (pyGet d "name") = true ∧ pyTruthy (pyGet d "idea") = true ∧
      pyTruthy (pyGet d "target_market") = true ∧ pyTruthy (pyGet d "key_features") = true := by
  simp [all_info_present, List.all_cons, Bool.and_eq_true]

/-- Master case analysis of one chat turn of the message handler. -/
lemma mainHandler_cases (s : Session) (u : String)
    (run : Agent SpecToolBinding → String → Except String String)
    (rs : Agent SpecToolBinding → String → Except String (List StreamEvent)) :
    (all_info_present s.startup_info = true ∧
      mainHandler s u run rs =
        { session := { conversation_history := [], startup_info := freshStartupInfo },
          sent := (business_plan_generation s.startup_info rs).sent,
          branch := .planGeneration }) ∨
    (all_info_present s.startup_info = false ∧ ∃ e,
      run business_plan_generator_agent (context_message s.startup_info u) = .error e ∧
      mainHandler s u run rs =
        { session := { conversation_history := s.conversation_history ++ [{ role := "user", content := u }],
                       startup_info := s.startup_info },
          sent := [errorTemplate e],
          branch := .errorCaught }) ∨
    (all_info_present s.startup_info = false ∧ ∃ response,
      run business_plan_generator_agent (context_message s.startup_info u) = .ok response ∧
      pyIn "# Business Plan:" response = true ∧
      mainHandler s u run rs =
        { session := { conversation_history := [], startup_info := freshStartupInfo },
          sent := [response],
          branch := .planDetected }) ∨
    (all_info_present s.startup_info = false ∧ ∃ response,
      run business_plan_generator_agent (context_message s.startup_info u) = .ok response ∧
      pyIn "# Business Plan:" response = false ∧
      mainHandler s u run rs =
        { session := { conversation_history :=
                         s.conversation_history ++ [{ role := "user", content := u },
                                                    { role := "assistant", content := response }],
                       startup_info := s.startup_info },
          sent := [response],
          branch := .gathering }) := by
  by_cases hA : all_info_present s.startup_info = true
  · left
    refine ⟨hA, ?_⟩
    simp [mainHandler, mainBody, hA]
  · have hA' : all_info_present s.startup_info = false := by
      exact Bool.eq_false_iff.mpr hA
    right
    cases hrun : run business_plan_generator_agent (context_message s.startup_info u) with
    | error e =>
      left
      exact ⟨hA', e, rfl, by simp [mainHandler, mainBody, hA', hrun]⟩
    | ok response =>
      by_cases hp : pyIn "# Business Plan:" response = true
      · right; left
        exact ⟨hA', response, rfl, hp, by simp [mainHandler, mainBody, hA', hrun, hp]⟩
      · right; right
        have hp' : pyIn "# Business Plan:" response = false := Bool.eq_false_iff.mpr hp
        exact ⟨hA', response, rfl, hp', by simp [mainHandler, mainBody, hA', hrun, hp']⟩

/-- The handler takes the plan-generation branch exactly when the
all_info_present test passes. -/
lemma mainHandler_branch_planGeneration_iff (s : Session) (u : String)
    (run : Agent SpecToolBinding → String → Except String String)
    (rs : Agent SpecToolBinding → String → Except String (List StreamEvent)) :
    (mainHandler s u run rs).branch = Branch.planGeneration ↔
      all_info_present s.startup_info = true := by
  rcases mainHandler_cases s u run rs with ⟨hA, heq⟩ | ⟨hA, e, _, heq⟩ |
    ⟨hA, r, _, _, heq⟩ | ⟨hA, r, _, _, heq⟩ <;> rw [heq] <;> simp [hA]

/-- The truthiness test fails on a dictionary whose "name" entry reads as None. -/
lemma all_info_present_false_of_none {d : StartupDict} (h : pyGet d "name" = none) :
    all_info_present d = false := by
  rw [Bool.eq_false_iff]
  intro hA
  have hc := (all_info_present_iff d).mp hA
  rw [h] at hc
  simp [pyTruthy] at hc

/-- Every reachable session keeps exactly the four startup keys, all read as None. -/
lemma reachable_startup_info_none (s : Session) (h : Reachable s) :
    s.startup_info.map Prod.fst = ["name", "idea", "target_market", "key_features"] ∧
    pyGet s.startup_info "name" = none ∧ pyGet s.startup_info "idea" = none ∧
    pyGet s.startup_info "target_market" = none ∧ pyGet s.startup_info "key_features" = none := by
  induction h with
  | start => exact ⟨rfl, rfl, rfl, rfl, rfl⟩
  | step s u run rs _ ih =>
    rcases mainHandler_cases s u run rs with ⟨hA, heq⟩ | ⟨hA, e, _, heq⟩ |
      ⟨hA, r, _, _, heq⟩ | ⟨hA, r, _, _, heq⟩ <;> rw [heq] <;>
      first
        | exact ⟨rfl, rfl, rfl, rfl, rfl⟩
        | exact ih

/-- Every record in a reachable conversation history is a user or assistant turn. -/
lemma reachable_history_roles (s : Session) (h : Reachable s) :
    ∀ m ∈ s.conversation_history, m.role = "user" ∨ m.role = "assistant" := by
  induction h with
  | start => intro m hm; simp [start] at hm
  | step s u run rs _ ih =>
    rcases mainHandler_cases s u run rs with ⟨hA, heq⟩ | ⟨hA, e, _, heq⟩ |
      ⟨hA, r, _, _, heq⟩ | ⟨hA, r, _, _, heq⟩ <;> rw [heq] <;> intro m hm
    · simp at hm
    · rcases List.mem_append.mp hm with hm | hm
      · exact ih m hm
      · simp at hm; rw [hm]; left; rfl
    · simp at hm
    · rcases List.mem_append.mp hm with hm | hm
      · exact ih m hm
      · simp at hm
        rcases hm with hm | hm
        · rw [hm]; left; rfl
        · rw [hm]; right; rfl

/-- Within one turn, the history is reset or extended by this turn's records. -/
lemma mainHandler_history_cases (s : Session) (u : String)
    (run : Agent SpecToolBinding → String → Except String String)
    (rs : Agent SpecToolBinding → String → Except String (List StreamEvent)) :
    (mainHandler s u run rs).session.conversation_history = [] ∨
    (mainHandler s u run rs).session.conversation_history =
      s.conversation_history ++ [{ role := "user", content := u }] ∨
    ∃ response, (mainHandler s u run rs).session.conversation_history =
      s.conversation_history ++ [{ role := "user", content := u },
                                 { role := "assistant", content := response }] := by
  rcases mainHandler_cases s u run rs with ⟨hA, heq⟩ | ⟨hA, e, _, heq⟩ |
    ⟨hA, r, _, _, heq⟩ | ⟨hA, r, _, _, heq⟩ <;> rw [heq]
  · left; rfl
  · right; left; rfl
  · left; rfl
  · right; right; exact ⟨r, rfl⟩

/-- Containment of `mid` in `pre ++ mid` always holds. -/
lemma pyIn_suffix (pre mid : String) : pyIn mid (pre ++ mid) = true := by
  rw [← String.append_empty (pre ++ mid)]
  exact pyIn_middle pre mid ""

/- ===== Claim theorems ===== -/

/-- A session state whose four startup fields are all set, but to empty strings:
every field is non-None, yet every field is falsy. -/
def emptyFieldsSession : Session :=
  { conversation_history := [],
    startup_info := [
      ("name", some ""), ("idea", some ""),
      ("target_market", some ""), ("key_features", some "")
    ] }

/-- A session state whose four startup fields are all set to nonempty strings. -/
def filledSession : Session :=
  { conversation_history := [],
    startup_info := [
      ("name", some "Acme"), ("idea", some "AI invoicing"),
      ("target_market", some "Small businesses"), ("key_features", some "Automation")
    ] }

/-- C1 counterexample: in the session state whose four startup fields are all
non-None (each holds the empty string), the handler still takes the
question-asking branch, because the code tests Python truthiness rather than
non-None-ness — refuting the claim that every all-fields-non-None state takes
the plan-generation branch. -/
theorem C1_counterexample :
    (pyGet emptyFieldsSession.startup_info "name" ≠ none ∧
     pyGet emptyFieldsSession.startup_info "idea" ≠ none ∧
     pyGet emptyFieldsSession.startup_info "target_market" ≠ none ∧
     pyGet emptyFieldsSession.startup_info "key_features" ≠ none) ∧
    (mainHandler emptyFieldsSession "Please generate the plan"
        (fun _ _ => Except.ok "What is your startup called?")
        (fun _ _ => Except.ok [])).branch = Branch.gathering := by
  constructor
  · refine ⟨?_, ?_, ?_, ?_⟩ <;> decide
  · rfl

/-- C1 (amended): the handler takes the plan-generation branch — calling
business_plan_generation and sending exactly what it sends — if and only if all
four startup fields are truthy (non-None and nonempty); whenever any field is
None or empty it takes the question-asking branch instead. -/
theorem C1_plan_branch_iff_truthy (s : Session) (u : String)
    (run : Agent SpecToolBinding → String → Except String String)
    (rs : Agent SpecToolBinding → String → Except String (List StreamEvent)) :
    ((mainHandler s u run rs).branch = Branch.planGeneration ↔
      (pyTruthy (pyGet s.startup_info "name") = true ∧
       pyTruthy (pyGet s.startup_info "idea") = true ∧
       pyTruthy (pyGet s.startup_info "target_market") = true ∧
       pyTruthy (pyGet s.startup_info "key_features") = true)) ∧
    ((mainHandler s u run rs).branch = Branch.planGeneration →
      (mainHandler s u run rs).sent = (business_plan_generation s.startup_info rs).sent) := by
  constructor
  · rw [mainHandler_branch_planGeneration_iff]
    exact all_info_present_iff s.startup_info
  · intro hb
    rcases mainHandler_cases s u run rs with ⟨hA, heq⟩ | ⟨hA, e, _, heq⟩ |
      ⟨hA, r, _, _, heq⟩ | ⟨hA, r, _, _, heq⟩
    · rw [heq]
    · rw [heq] at hb; simp at hb
    · rw [heq] at hb; simp at hb
    · rw [heq] at hb; simp at hb

/-- C1 witness: on the session whose four fields hold nonempty strings, the
handler takes the plan-generation branch and relays what
business_plan_generation sends. -/
theorem C1_witness :
    (mainHandler filledSession "go" (fun _ _ => Except.ok "ok")
        (fun _ _ => Except.ok [])).branch = Branch.planGeneration ∧
    (mainHandler filledSession "go" (fun _ _ => Except.ok "ok")
        (fun _ _ => Except.ok [])).sent =
      (business_plan_generation filledSession.startup_info (fun _ _ => Except.ok [])).sent := by
  have h := C1_plan_branch_iff_truthy filledSession "go" (fun _ _ => Except.ok "ok")
    (fun _ _ => Except.ok [])
  have hb := h.1.mpr (by refine ⟨?_, ?_, ?_, ?_⟩ <;> decide)
  exact ⟨hb, h.2 hb⟩

/-- C2: in every session state reachable from a fresh chat, all four startup
fields read as None, the all_info_present test is false, and no chat turn can
take the plan-generation branch. -/
theorem C2_fields_never_set (s : Session) (h : Reachable s) :
    pyGet s.startup_info "name" = none ∧ pyGet s.startup_info "idea" = none ∧
    pyGet s.startup_info "target_market" = none ∧ pyGet s.startup_info "key_features" = none ∧
    all_info_present s.startup_info = false ∧
    ∀ (u : String) (run : Agent SpecToolBinding → String → Except String String)
      (rs : Agent SpecToolBinding → String → Except String (List StreamEvent)),
      (mainHandler s u run rs).branch ≠ Branch.planGeneration := by
  obtain ⟨-, h1, h2, h3, h4⟩ := reachable_startup_info_none s h
  have hA := all_info_present_false_of_none h1
  refine ⟨h1, h2, h3, h4, hA, ?_⟩
  intro u run rs hb
  rw [mainHandler_branch_planGeneration_iff, hA] at hb
  exact Bool.false_ne_true hb

/-- C2 witness: at the fresh-chat state itself, the test is false and a concrete
turn does not take the plan-generation branch. -/
theorem C2_witness :
    all_info_present start.startup_info = false ∧
    (mainHandler start "hello"
        (fun _ _ => Except.ok "Hi! What is your startup called?")
        (fun _ _ => Except.ok [])).branch ≠ Branch.planGeneration := by
  have h := C2_fields_never_set start Reachable.start
  exact ⟨h.2.2.2.2.1, h.2.2.2.2.2 "hello" _ _⟩

/-- C4: every reachable session state consists of the startup-info dictionary
with exactly the four keys name, idea, target_market, key_features (in that
order) and a history of user/assistant role-content records; each further turn
either appends this turn's records in order at the tail or resets the history,
and preserves the four-key dictionary shape. -/
theorem C4_state_shape (s : Session) (h : Reachable s) :
    s.startup_info.map Prod.fst = ["name", "idea", "target_market", "key_features"] ∧
    (∀ m ∈ s.conversation_history, m.role = "user" ∨ m.role = "assistant") ∧
    ∀ (u : String) (run : Agent SpecToolBinding → String → Except String String)
      (rs : Agent SpecToolBinding → String → Except String (List StreamEvent)),
      (mainHandler s u run rs).session.startup_info.map Prod.fst =
        ["name", "idea", "target_market", "key_features"] ∧
      ((mainHandler s u run rs).session.conversation_history = [] ∨
       (mainHandler s u run rs).session.conversation_history =
         s.conversation_history ++ [{ role := "user", content := u }] ∨
       ∃ response, (mainHandler s u run rs).session.conversation_history =
         s.conversation_history ++ [{ role := "user", content := u },
                                    { role := "assistant", content := response }]) := by
  refine ⟨(reachable_startup_info_none s h).1, reachable_history_roles s h, ?_⟩
  intro u run rs
  exact ⟨(reachable_startup_info_none _ (Reachable.step s u run rs h)).1,
         mainHandler_history_cases s u run rs⟩

/-- C4 witness: at the fresh-chat state, the dictionary has exactly the four
keys, and they are preserved across a concrete turn. -/
theorem C4_witness :
    start.startup_info.map Prod.fst = ["name", "idea", "target_market", "key_features"] ∧
    (mainHandler start "hi"
        (fun _ _ => Except.ok "Welcome! What is the name?")
        (fun _ _ => Except.ok [])).session.startup_info.map Prod.fst =
      ["name", "idea", "target_market", "key_features"] := by
  have h := C4_state_shape start Reachable.start
  exact ⟨h.1, (h.2.2 "hi" _ _).1⟩

/-- C5: every exception raised inside the message handler's try block is caught
by its except clause, which sends one message containing str(e) and leaves the
handler returning normally; and every exception raised inside
business_plan_generation is caught there, with an error message containing
str(e) sent to the user. -/
theorem C5_catch_and_print (s : Session) (u : String)
    (run : Agent SpecToolBinding → String → Except String String)
    (rs : Agent SpecToolBinding → String → Except String (List StreamEvent)) :
    (∀ e, mainBody s u run rs = Except.error e →
      mainHandler s u run rs =
        { session := { conversation_history :=
                         s.conversation_history ++ [{ role := "user", content := u }],
                       startup_info := s.startup_info },
          sent := [errorTemplate e],
          branch := Branch.errorCaught } ∧
      pyIn e (errorTemplate e) = true) ∧
    (∀ e, (business_plan_generation s.startup_info (fun _ _ => Except.error e)).sent =
        ["", startingStatus, "❌ Error generating plan: " ++ e] ∧
      pyIn e ("❌ Error generating plan: " ++ e) = true) := by
  constructor
  · intro e he
    constructor
    · unfold mainHandler
      rw [he]
    · exact pyIn_middle "\n❌ **Error:**\n\n" e
        "\n\nPlease try again or provide more details about your startup.\n        "
  · intro e
    exact ⟨rfl, pyIn_suffix "❌ Error generating plan: " e⟩

/-- C5 witness: a concrete turn whose Runner.run call raises "boom" ends with
the handler catching it and sending the error template, which contains "boom";
likewise for a concrete business_plan_generation failure. -/
theorem C5_witness :
    mainBody start "hi" (fun _ _ => Except.error "boom") (fun _ _ => Except.ok []) =
      Except.error "boom" ∧
    pyIn "boom" (errorTemplate "boom") = true ∧
    (mainHandler start "hi" (fun _ _ => Except.error "boom")
        (fun _ _ => Except.ok [])).sent = [errorTemplate "boom"] ∧
    pyIn "boom" ("❌ Error generating plan: " ++ "boom") = true := by
  have h := C5_catch_and_print start "hi" (fun _ _ => Except.error "boom") (fun _ _ => Except.ok [])
  have he : mainBody start "hi" (fun _ _ => Except.error "boom") (fun _ _ => Except.ok []) =
      Except.error "boom" := rfl
  have h1 := h.1 "boom" he
  exact ⟨he, h1.2, by rw [h1.1], (h.2 "boom").2⟩

/-- No nonempty suffix of the mandated heading prefix matches up with the
detection needle "# Business Plan:" (neither is a prefix of the other), so no
occurrence of the needle can start inside or at the boundary of the prefix. -/
lemma heading_boundary : ∀ i, i < ("# SaaS Business Plan: ".toList).length →
    ¬ ("# Business Plan:".toList) <+: ("# SaaS Business Plan: ".toList).drop i ∧
    ¬ ("# SaaS Business Plan: ".toList).drop i <+: ("# Business Plan:".toList) := by
  decide

/-- The detection needle occurs in the mandated heading exactly when it occurs
in the startup name itself. -/
lemma pyIn_mandatedHeading_eq (name : String) :
    pyIn "# Business Plan:" (mandatedHeading name) = pyIn "# Business Plan:" name := by
  have hdata : (mandatedHeading name).toList = ("# SaaS Business Plan: ".toList) ++ name.toList := by
    show ("# SaaS Business Plan: " ++ name).data = _
    exact String.data_append _ _
  unfold pyIn
  rw [hdata]
  exact listContainsSub_append_eq _ _ _ heading_boundary

/-- C3 counterexample: there is a startup name — one that itself contains the
detection substring — for which the mandated heading does contain
"# Business Plan:", refuting the claim's "for every startup name". -/
theorem C3_counterexample :
    pyIn "# Business Plan:" (mandatedHeading "# Business Plan: Acme") = true := by
  decide

/-- C3 (amended): for every startup name that does not itself contain the
detection substring "# Business Plan:", the heading mandated by the orchestrator
instructions (the template line is verbatim among them) does not contain the
detection substring; hence an agent output following the mandated format for
such a name — containing "# Business Plan:" nowhere — is handled by the
information-gathering branch during the gathering phase, and the session state
is not reset: startup_info is kept and the turn is appended to the history. -/
theorem C3_mandated_heading_not_detected (name : String) (s : Session) (u : String)
    (rs : Agent SpecToolBinding → String → Except String (List StreamEvent))
    (response : String)
    (hname : pyIn "# Business Plan:" name = false)
    (hA : all_info_present s.startup_info = false)
    (hdet : pyIn "# Business Plan:" response = false) :
    planHeadingTemplate ∈ business_plan_generator_instruction_lines ∧
    pyIn "# Business Plan:" (mandatedHeading name) = false ∧
    (mainHandler s u (fun _ _ => Except.ok response) rs).branch = Branch.gathering ∧
    (mainHandler s u (fun _ _ => Except.ok response) rs).session.startup_info = s.startup_info ∧
    (mainHandler s u (fun _ _ => Except.ok response) rs).session.conversation_history =
      s.conversation_history ++ [{ role := "user", content := u },
                                 { role := "assistant", content := response }] := by
  refine ⟨by decide, by rw [pyIn_mandatedHeading_eq]; exact hname, ?_⟩
  rcases mainHandler_cases s u (fun _ _ => Except.ok response) rs with ⟨hA2, heq⟩ |
    ⟨hA2, e, hrun, heq⟩ | ⟨hA2, r, hrun, hr, heq⟩ | ⟨hA2, r, hrun, hr, heq⟩
  · rw [hA] at hA2
    exact absurd hA2 (by simp)
  · exact absurd hrun (by simp)
  · have hrr : response = r := by simpa using hrun
    rw [← hrr, hdet] at hr
    exact absurd hr (by simp)
  · have hrr : response = r := by simpa using hrun
    subst hrr
    rw [heq]
    exact ⟨rfl, rfl, rfl⟩

/-- C3 witness: with the startup name "Acme", the mandated heading is not
detected, and a turn in the gathering phase whose agent output is exactly that
heading is handled by the gathering branch without resetting the state. -/
theorem C3_witness :
    pyIn "# Business Plan:" "Acme" = false ∧
    pyIn "# Business Plan:" (mandatedHeading "Acme") = false ∧
    (mainHandler start "done" (fun _ _ => Except.ok (mandatedHeading "Acme"))
        (fun _ _ => Except.ok [])).branch = Branch.gathering ∧
    (mainHandler start "done" (fun _ _ => Except.ok (mandatedHeading "Acme"))
        (fun _ _ => Except.ok [])).session.startup_info = start.startup_info := by
  have h := C3_mandated_heading_not_detected "Acme" start "done" (fun _ _ => Except.ok [])
    (mandatedHeading "Acme") (by decide) (by decide) (by decide)
  exact ⟨by decide, h.2.1, h.2.2.1, h.2.2.2.1⟩

/-- C6: each of the six specialist agents is bound to the one shared model
object and to the same three web-search tool bindings in the same order, and any
two specialists agree on every field except their name and instruction text. -/
theorem C6_specialists_share_backend (a b : Agent WebTool)
    (ha : a ∈ specialistAgents) (hb : b ∈ specialistAgents) :
    a.model = model ∧
    a.tools = [WebTool.tavily_search_tool, WebTool.tavily_extract_tool, WebTool.tavily_crawl_tool] ∧
    { a with name := b.name, instructions := b.instructions } = b := by
  simp only [specialistAgents] at ha hb
  fin_cases ha <;> fin_cases hb <;> exact ⟨rfl, rfl, rfl⟩

/-- C6 witness: the first and last specialists share model and tools, and
rewriting the first one's name and instructions to the last one's yields
exactly the last one. -/
theorem C6_witness :
    market_analyst_agent.model = model ∧
    market_analyst_agent.tools =
      [WebTool.tavily_search_tool, WebTool.tavily_extract_tool, WebTool.tavily_crawl_tool] ∧
    { market_analyst_agent with
        name := exec_summary_agent.name,
        instructions := exec_summary_agent.instructions } = exec_summary_agent :=
  C6_specialists_share_backend market_analyst_agent exec_summary_agent
    (by simp [specialistAgents]) (by simp [specialistAgents])

/-- The lines of the orchestrator instructions that issue a specialist call
(each begins "n. Call ..."). -/
def processCallLines : List String :=
  business_plan_generator_instruction_lines.filter (fun l => pyIn "Call " l)

set_option maxRecDepth 8000 in
/-- C7: the orchestrator is configured with exactly six specialist tools in the
order analyze_market, define_product, design_revenue_model, plan_gtm,
project_financials, write_summary — one per specialist agent — and the
plan-generation process in its instructions consists of exactly six call steps,
the i-th of which invokes the i-th tool's specialist ("Call <tool>_agent ONCE")
in that same order. -/
theorem C7_six_tools_in_order :
    business_plan_generator_agent.tools.map SpecToolBinding.tool_name =
      ["analyze_market", "define_product", "design_revenue_model", "plan_gtm",
       "project_financials", "write_summary"] ∧
    business_plan_generator_agent.tools.map (fun b => b.agent.name) =
      ["MarketAnalyst", "ProductStrategist", "BusinessModelAnalyst",
       "GoToMarketStrategist", "FinancialAnalyst", "ExecutiveSummaryWriter"] ∧
    processCallLines = [
      "        1. Call analyze_market_agent ONCE with all SaaS startup information as a single formatted string",
      "        2. Call define_product_agent ONCE with all SaaS startup information as a single formatted string",
      "        3. Call design_revenue_model_agent ONCE with all SaaS startup information as a single formatted string",
      "        4. Call plan_gtm_agent ONCE with all SaaS startup information as a single formatted string",
      "        5. Call project_financials_agent ONCE with all SaaS startup information as a single formatted string",
      "        6. Call write_summary_agent ONCE with all SaaS startup information as a single formatted string"] ∧
    (processCallLines.zip (business_plan_generator_agent.tools.map SpecToolBinding.tool_name)).all
      (fun p => pyIn ("Call " ++ p.2 ++ "_agent ONCE") p.1) = true := by
  refine ⟨rfl, rfl, ?_, ?_⟩ <;> decide

/-- C9: each of the three web-search tool functions is total with respect to
client failures: whenever the underlying Tavily call raises an exception e, the
function returns the dictionary mapping "error" to str(e) and "results" to the
empty list (plus "response_time": None for the search tool), instead of
propagating the exception. -/
theorem C9_tools_catch_client_errors :
    (∀ (query : String) (max_results : Nat) (topic search_depth : String) (e : String),
      tavily_search_tool query max_results topic search_depth (Except.error e) =
        PyVal.vdict [("error", PyVal.vstr e), ("results", PyVal.vlist []),
                     ("response_time", PyVal.vnone)]) ∧
    (∀ (urls : List String) (include_images : Bool) (e : String),
      tavily_extract_tool urls include_images (Except.error e) =
        PyVal.vdict [("error", PyVal.vstr e), ("results", PyVal.vlist [])]) ∧
    (∀ (start_url : String) (max_depth limit : Nat) (instructions : Option String) (e : String),
      tavily_crawl_tool start_url max_depth limit instructions (Except.error e) =
        PyVal.vdict [("error", PyVal.vstr e), ("results", PyVal.vlist [])]) :=
  ⟨fun _ _ _ _ _ => rfl, fun _ _ _ => rfl, fun _ _ _ _ _ => rfl⟩

/-- C8: the streaming event loop body is a pure dispatch from event kinds and
tool names to UI updates: a raw tool-call-start event (response.output_item.added
with a named item) records the tool as current and sets the status to the
tool_status_messages entry for its name — in particular the fixed message for
each of the six specialist tool names — or to the fallback "🔄 Executing
<tool_name>..." for any name outside the table; a text-delta event appends the
delta to the output message; and a tool-completion event sets the status to the
completion string derived from the most recently started tool's name whenever
that name is truthy (the `if completed_tool:` guard), leaving the status
untouched when no truthy tool name has been recorded. -/
theorem C8_event_dispatch (st : LoopState) :
    (∀ tool_name, stepEvent st (StreamEvent.outputItemAdded (some tool_name)) =
      { st with
        current_tool := some tool_name,
        statusContent := lookupD tool_status_messages tool_name
          ("🔄 Executing " ++ tool_name ++ "...") }) ∧
    (∀ tool_name status, (tool_name, status) ∈ tool_status_messages →
      (stepEvent st (StreamEvent.outputItemAdded (some tool_name))).statusContent = status) ∧
    (∀ tool_name, tool_status_messages.any (fun p => p.1 == tool_name) = false →
      (stepEvent st (StreamEvent.outputItemAdded (some tool_name))).statusContent =
        "🔄 Executing " ++ tool_name ++ "...") ∧
    (∀ delta, stepEvent st (StreamEvent.textDelta delta) =
      { st with msgContent := st.msgContent ++ delta }) ∧
    (∀ completed_tool, st.current_tool = some completed_tool →
      completed_tool.isEmpty = false →
      stepEvent st StreamEvent.toolCallOutputItem =
        { st with statusContent := "✅ Completed " ++ pyTitle (pyReplace completed_tool "_" " ")
            ++ "... Starting next phase..." }) ∧
    (pyTruthy st.current_tool = false →
      stepEvent st StreamEvent.toolCallOutputItem = st) := by
  have hadd : ∀ tool_name, stepEvent st (StreamEvent.outputItemAdded (some tool_name)) =
      { st with
        current_tool := some tool_name,
        statusContent := lookupD tool_status_messages tool_name
          ("🔄 Executing " ++ tool_name ++ "...") } := fun _ => rfl
  refine ⟨hadd, ?_, ?_, ?_, ?_, ?_⟩
  · intro tool_name status hmem
    rw [hadd tool_name]
    fin_cases hmem <;> rfl
  · intro tool_name hn
    rw [hadd tool_name]
    show lookupD tool_status_messages tool_name ("🔄 Executing " ++ tool_name ++ "...") = _
    have hfind : tool_status_messages.find? (fun p => p.1 == tool_name) = none :=
      List.find?_eq_none.mpr (List.any_eq_false.mp hn)
    unfold lookupD
    rw [hfind]
  · intro delta
    by_cases hd : delta.isEmpty = true
    · have hde : delta = "" := (String.isEmpty_iff delta).mp hd
      subst hde
      simp [stepEvent, String.append_empty]
    · have hd' : delta.isEmpty = false := Bool.eq_false_iff.mpr hd
      simp [stepEvent, hd']
  · intro completed_tool hct hne
    simp only [stepEvent]
    rw [hct]
    simp [hne]
  · intro hfalsy
    cases hct : st.current_tool with
    | none =>
      simp only [stepEvent]
      rw [hct]
    | some completed_tool =>
      rw [hct] at hfalsy
      have htrue : completed_tool.isEmpty = true := by simpa [pyTruthy] using hfalsy
      simp only [stepEvent]
      rw [hct]
      simp [htrue]

/-- A concrete loop state: a plan_gtm call has just started. -/
def loopStateGtm : LoopState :=
  { msgContent := "", statusContent := "🎯 Planning go-to-market strategy...",
    current_tool := some "plan_gtm" }

/-- A concrete loop state whose tracked tool name is empty (falsy in Python). -/
def loopStateEmptyTool : LoopState :=
  { msgContent := "", statusContent := startingStatus, current_tool := some "" }

/-- C8 witness: concrete dispatches — a known tool name maps to its table entry,
an unknown tool name maps to the fallback text, a text delta is appended, a
tool completion derives its status from the truthy current tool plan_gtm, and a
tool completion with an empty (falsy) tracked name leaves the state unchanged. -/
theorem C8_witness :
    (stepEvent loopStateGtm (StreamEvent.outputItemAdded (some "analyze_market"))).statusContent =
      "🔍 Researching market trends and competitors..." ∧
    (stepEvent loopStateGtm (StreamEvent.outputItemAdded (some "mystery_tool"))).statusContent =
      "🔄 Executing mystery_tool..." ∧
    stepEvent loopStateGtm (StreamEvent.textDelta "Hello") =
      { loopStateGtm with msgContent := loopStateGtm.msgContent ++ "Hello" } ∧
    stepEvent loopStateGtm StreamEvent.toolCallOutputItem =
      { loopStateGtm with statusContent := "✅ Completed Plan Gtm... Starting next phase..." } ∧
    stepEvent loopStateEmptyTool StreamEvent.toolCallOutputItem = loopStateEmptyTool := by
  have h := C8_event_dispatch loopStateGtm
  have hskip := (C8_event_dispatch loopStateEmptyTool).2.2.2.2.2 (by decide)
  refine ⟨h.2.1 "analyze_market" _ (by decide), h.2.2.1 "mystery_tool" (by decide),
          h.2.2.2.1 "Hello", ?_, hskip⟩
  rw [h.2.2.2.2.1 "plan_gtm" rfl (by decide)]
  decide

/- ===== C10 equivalence lemmas ===== -/

/-- Replaying a run of token events appends their concatenation. -/
lemma replayContent_tokens (ds : List String) : ∀ acc : String,
    replayContent acc (ds.map UIEvent.token) = acc ++ joinAll ds := by
  induction ds with
  | nil => intro acc; simp [replayContent, joinAll, String.append_empty]
  | cons d rest ih =>
    intro acc
    simp only [List.map_cons, replayContent, joinAll]
    rw [ih (acc ++ d), String.append_assoc]

/-- Every revision style plumbs a token stream to the same final content: the
concatenation of the tokens. -/
lemma finalContent_streamTrace (style : RevisionStyle) (ds : List String) :
    finalContent (streamTrace style ds) = joinAll ds := by
  rcases style with ⟨creation, streaming, statusUpdates⟩
  cases creation <;> cases streaming
  · show replayContent "" (UIEvent.create "" :: ds.map UIEvent.token) = joinAll ds
    show replayContent "" (ds.map UIEvent.token) = joinAll ds
    rw [replayContent_tokens ds "", String.empty_append]
  · rfl
  · cases ds with
    | nil => rfl
    | cons d rest =>
      show replayContent d (rest.map UIEvent.token) = joinAll (d :: rest)
      rw [replayContent_tokens rest d]
      rfl
  · cases ds with
    | nil => rfl
    | cons d rest => rfl

/-- A leading status update does not change the final output content. -/
lemma finalContent_status_prepend (style : RevisionStyle) (tr : List UIEvent) :
    finalContent ((if style.statusUpdates then [UIEvent.status startingStatus] else []) ++ tr) =
      finalContent tr := by
  by_cases hs : style.statusUpdates <;> simp [hs, finalContent, replayContent]

/-- The substantive observation of a revision run does not depend on the style. -/
lemma substantive_style_independent (st1 st2 : RevisionStyle) (s : Session) (u : String)
    (run : Agent SpecToolBinding → String → Except String String) (ds : List String) :
    substantive (revisionRun st1 s u run ds) = substantive (revisionRun st2 s u run ds) := by
  have key : ∀ st : RevisionStyle, ∀ l : List String, finalContent
      ((if st.statusUpdates then [UIEvent.status startingStatus] else []) ++ streamTrace st l) =
      joinAll l := by
    intro st l
    rw [finalContent_status_prepend, finalContent_streamTrace]
  have key1 : ∀ st : RevisionStyle, ∀ r : String, finalContent (streamTrace st [r]) = r := by
    intro st r
    rw [finalContent_streamTrace]
    show r ++ "" = r
    exact String.append_empty r
  unfold substantive revisionRun
  by_cases hA : all_info_present s.startup_info = true
  · simp only [hA, if_true, ite_true]
    rw [key st1 ds, key st2 ds]
  · have hA' : all_info_present s.startup_info = false := Bool.eq_false_iff.mpr hA
    simp only [hA', Bool.false_eq_true, if_false, ite_false]
    cases hrun : run business_plan_generator_agent (context_message s.startup_info u) with
    | error e => rfl
    | ok response =>
      by_cases hp : pyIn "# Business Plan:" response = true
      · simp only [hp, if_true, ite_true]
        rw [key1 st1 response, key1 st2 response]
      · have hp' : pyIn "# Business Plan:" response = false := Bool.eq_false_iff.mpr hp
        simp only [hp', Bool.false_eq_true, if_false, ite_false]
        rw [key1 st1 response, key1 st2 response]

/-- A revision run reaches the same session state and branch as the handler of
src/main.py on the corresponding event stream. -/
lemma revisionRun_matches_mainHandler (style : RevisionStyle) (s : Session) (u : String)
    (run : Agent SpecToolBinding → String → Except String String) (ds : List String) :
    (revisionRun style s u run ds).session =
      (mainHandler s u run (fun _ _ => Except.ok (ds.map StreamEvent.textDelta))).session ∧
    (revisionRun style s u run ds).branch =
      (mainHandler s u run (fun _ _ => Except.ok (ds.map StreamEvent.textDelta))).branch := by
  rcases mainHandler_cases s u run (fun _ _ => Except.ok (ds.map StreamEvent.textDelta)) with
    ⟨hA, heq⟩ | ⟨hA, e, hrun, heq⟩ | ⟨hA, r, hrun, hr, heq⟩ | ⟨hA, r, hrun, hr, heq⟩ <;>
    rw [heq] <;> unfold revisionRun
  · simp [hA]
  · simp [hA, hrun]
  · simp [hA, hrun, hr]
  · constructor <;> simp [hA, hrun, hr, List.append_assoc]

/-- C10: any two of the five handler revisions are behaviourally equivalent in
every substantive respect — same resulting session state, same branch decision,
and the same final content shown to the user — differing only in their UI
plumbing traces; moreover each revision's session state and branch agree with
those of the revision kept in src/main.py. -/
theorem C10_revisions_equivalent (st1 st2 : RevisionStyle)
    (h1 : st1 ∈ revisionStyles) (h2 : st2 ∈ revisionStyles)
    (s : Session) (u : String)
    (run : Agent SpecToolBinding → String → Except String String)
    (planDeltas : List String) :
    substantive (revisionRun st1 s u run planDeltas) =
      substantive (revisionRun st2 s u run planDeltas) ∧
    (revisionRun st1 s u run planDeltas).session =
      (mainHandler s u run (fun _ _ => Except.ok (planDeltas.map StreamEvent.textDelta))).session ∧
    (revisionRun st1 s u run planDeltas).branch =
      (mainHandler s u run (fun _ _ => Except.ok (planDeltas.map StreamEvent.textDelta))).branch :=
  ⟨substantive_style_independent st1 st2 s u run planDeltas,
   (revisionRun_matches_mainHandler st1 s u run planDeltas).1,
   (revisionRun_matches_mainHandler st1 s u run planDeltas).2⟩

/-- C10 witness: the src/main.py revision style and the most different style
(create-at-first-token, buffered, no status message) produce the same
substantive observation on a concrete turn. -/
theorem C10_witness :
    substantive (revisionRun
      { creation := MsgCreation.beforeStreaming, streaming := StreamingMode.eager, statusUpdates := true }
      start "hello" (fun _ _ => Except.ok "What is your startup called?") ["Hello ", "world"]) =
    substantive (revisionRun
      { creation := MsgCreation.atFirstToken, streaming := StreamingMode.buffered, statusUpdates := false }
      start "hello" (fun _ _ => Except.ok "What is your startup called?") ["Hello ", "world"]) :=
  (C10_revisions_equivalent
    { creation := MsgCreation.beforeStreaming, streaming := StreamingMode.eager, statusUpdates := true }
    { creation := MsgCreation.atFirstToken, streaming := StreamingMode.buffered, statusUpdates := false }
    (by decide) (by decide) start "hello"
    (fun _ _ => Except.ok "What is your startup called?") ["Hello ", "world"]).1
